import Mathlib

/-!
Verification development for the mdhtml markdown editor (src/main.py).

The program is a PyQt5 GUI; its verifiable logic is
  - the `HTML_TEMPLATE` string and its `.format(...)` instantiation, which is
    plain string concatenation of the literal segments between the placeholders
    (placeholder order in the template: font_family, font_family, bg_color,
    text_color, text_color, font_family, center_css, content);
  - the settings panel state (`bg_color`, `text_color`, `font_family`,
    `center`) with its operations `reset_to_default`, `get_settings`,
    `apply_config`;
  - the three renderer call sites `update_html`, `save_html`,
    `open_in_browser`, which each recompute `full_html` with identical code;
  - `load_config` error handling, and the editor zoom operations.

The third-party markdown converter (`markdown.markdown` with the
`fenced_code`/`codehilite` extensions) is not part of this repository; it is
modelled as an abstract function parameter `conv : String → String`, so every
theorem below holds for an arbitrary converter.

Braces and apostrophes inside string literals are written with the escapes
\x7b, \x7d and \x27.
-/

namespace Mdhtml

/-- Segment of `HTML_TEMPLATE` before the first `{font_family}` placeholder. -/
def HTML_TEMPLATE_seg0 : String := "<!doctype html>\n<html lang=\"en\">\n<head>\n  <meta charset=\"utf-8\">\n  <meta name=\"viewport\" content=\"width=device-width, initial-scale=1.0\">\n  <title>mdhtml</title>\n  <link href=\"https://fonts.googleapis.com/css2?family="

/-- Segment of `HTML_TEMPLATE` between the first and second `{font_family}`. -/
def HTML_TEMPLATE_seg1 : String := ":wght@300;400;700&display=swap\" rel=\"stylesheet\">\n  <style>\n    html, body \x7b\n      margin: 0;\n      padding: 0;\n      font-family: \x27"

/-- Segment of `HTML_TEMPLATE` between the second `{font_family}` and `{bg_color}`. -/
def HTML_TEMPLATE_seg2 : String := "\x27, monospace;\n      background-color: "

/-- Segment of `HTML_TEMPLATE` between `{bg_color}` and the first `{text_color}`. -/
def HTML_TEMPLATE_seg3 : String := ";\n      color: "

/-- Segment of `HTML_TEMPLATE` between the first and second `{text_color}`. -/
def HTML_TEMPLATE_seg4 : String := ";\n      line-height: 1.6;\n    \x7d\n    body \x7b padding: 40px; \x7d\n    h1, h2, h3, h4, h5, h6 \x7b\n      color: "

/-- Segment of `HTML_TEMPLATE` between the second `{text_color}` and the third `{font_family}`. -/
def HTML_TEMPLATE_seg5 : String := ";\n      margin-top: 20px;\n      margin-bottom: 10px;\n      text-align: center;\n    \x7d\n    p \x7b margin: 15px 0; font-size: 1.1em; \x7d\n    a \x7b\n      color: #83a598;\n      text-decoration: none;\n    \x7d\n    a:hover \x7b text-decoration: underline; \x7d\n    img \x7b\n      max-width: 100%;\n      height: auto;\n      display: block;\n      margin: 20px auto;\n    \x7d\n    blockquote \x7b\n      border-left: 4px solid #83a598;\n      margin: 20px 0;\n      padding: 10px 20px;\n      background-color: #3c3836;\n      color: #d5c4a1;\n      font-style: italic;\n    \x7d\n    code \x7b\n      background-color: #3c3836;\n      padding: 3px 6px;\n      border-radius: 4px;\n      font-family: \x27"

/-- Segment of `HTML_TEMPLATE` between the third `{font_family}` and `{center_css}`. -/
def HTML_TEMPLATE_seg6 : String := "\x27, monospace;\n    \x7d\n    pre \x7b\n      background-color: #3c3836;\n      padding: 15px;\n      border-radius: 8px;\n      overflow-x: auto;\n    \x7d\n    "

/-- Segment of `HTML_TEMPLATE` between `{center_css}` and `{content}`. -/
def HTML_TEMPLATE_seg7 : String := "\n    @media (max-width: 600px) \x7b\n      body \x7b padding: 20px; \x7d\n    \x7d\n  </style>\n</head>\n<body>\n  "

/-- Segment of `HTML_TEMPLATE` after `{content}`. -/
def HTML_TEMPLATE_seg8 : String := "\n</body>\n</html>"

/-- `HTML_TEMPLATE.format(content=..., bg_color=..., text_color=...,
font_family=..., center_css=...)`: the template with every placeholder replaced
by the corresponding argument, i.e. the concatenation of the literal segments
with the argument strings spliced in, in template order. -/
def HTML_TEMPLATE_format (content bg_color text_color font_family center_css : String) : String :=
  HTML_TEMPLATE_seg0 ++ font_family ++ HTML_TEMPLATE_seg1 ++ font_family ++
  HTML_TEMPLATE_seg2 ++ bg_color ++ HTML_TEMPLATE_seg3 ++ text_color ++
  HTML_TEMPLATE_seg4 ++ text_color ++ HTML_TEMPLATE_seg5 ++ font_family ++
  HTML_TEMPLATE_seg6 ++ center_css ++ HTML_TEMPLATE_seg7 ++ content ++
  HTML_TEMPLATE_seg8

/-- The centering CSS literal assigned to `center_css` in `update_html`,
`save_html` and `open_in_browser` when `settings["center"]` is truthy. -/
def CENTER_CSS : String := "\n            @media (min-width: 1024px) \x7b\n                body \x7b\n                    max-width: 800px;\n                    margin: 0 auto;\n                \x7d\n            \x7d\n            "

/-- State of `SettingsPanel`: the four settings attributes `bg_color`,
`text_color`, `font_family`, `center` set in `__init__` and mutated by the
panel's handlers. -/
structure Settings where
  bg_color : String
  text_color : String
  font_family : String
  center : Bool
deriving DecidableEq, Repr

/-- `SettingsPanel.default_bg_color`. -/
def default_bg_color : String := "#282828"

/-- `SettingsPanel.default_text_color`. -/
def default_text_color : String := "#ebdbb2"

/-- `SettingsPanel.default_font`. -/
def default_font : String := "roboto+mono"

/-- The settings state established by `SettingsPanel.__init__`: the defaults,
with `center = True`. -/
def initSettings : Settings :=
  { bg_color := default_bg_color, text_color := default_text_color,
    font_family := default_font, center := true }

/-- `SettingsPanel.reset_to_default`: sets the three default strings and
`center = True`, ignoring the prior state (widget updates are GUI effects with
no bearing on the settings value). -/
def reset_to_default (_s : Settings) : Settings :=
  { bg_color := default_bg_color, text_color := default_text_color,
    font_family := default_font, center := true }

/-- A parsed JSON config object as consumed by `SettingsPanel.apply_config`:
for each of the four recognized keys, `some v` when the key is present in the
object (with the value type the program itself writes for that key), `none`
when absent; `extra` lists any unrecognized keys, which `apply_config` never
reads. -/
structure Config where
  bg_color? : Option String
  text_color? : Option String
  font_family? : Option String
  center? : Option Bool
  extra : List String
deriving DecidableEq, Repr

/-- `SettingsPanel.get_settings`: builds the dict
`{"bg_color": ..., "text_color": ..., "font_family": ..., "center": ...}`
from the current settings — all four keys present, nothing else. -/
def get_settings (s : Settings) : Config :=
  { bg_color? := some s.bg_color, text_color? := some s.text_color,
    font_family? := some s.font_family, center? := some s.center, extra := [] }

/-- The list of keys of a config object, in the order `get_settings` writes
the four recognized ones. -/
def Config.keys (c : Config) : List String :=
  (if c.bg_color?.isSome then ["bg_color"] else []) ++
  (if c.text_color?.isSome then ["text_color"] else []) ++
  (if c.font_family?.isSome then ["font_family"] else []) ++
  (if c.center?.isSome then ["center"] else []) ++ c.extra

/-- `SettingsPanel.apply_config`: four independent `if key in config` guards,
each assigning the key's value to the matching attribute when present; keys
outside the four are never consulted (widget mirroring is a GUI effect). -/
def apply_config (config : Config) (s : Settings) : Settings :=
  let s1 := match config.bg_color? with
    | some v => { s with bg_color := v }
    | none => s
  let s2 := match config.text_color? with
    | some v => { s1 with text_color := v }
    | none => s1
  let s3 := match config.font_family? with
    | some v => { s2 with font_family := v }
    | none => s2
  match config.center? with
    | some v => { s3 with center := v }
    | none => s3

/-- The ways `MainWindow.load_config`'s `try` block can fail before
`apply_config` runs: `open` raising (missing file or I/O error) or
`json.load` raising on malformed JSON. -/
inductive LoadError where
  | missingFile
  | ioError
  | malformedJson
deriving DecidableEq, Repr

/-- `MainWindow.load_config` after a file was chosen: on a successful parse the
config is applied; any exception is caught by the `except` clause (which only
prints), leaving the settings untouched. -/
def load_config (r : Except LoadError Config) (s : Settings) : Settings :=
  match r with
  | .error _ => s
  | .ok config => apply_config config s

/-- The `MainWindow` state the renderer and zoom operations touch:
`markdown_font_size` (an `int`, initialised to 12), the editor text
(`markdown_edit.toPlainText()`), and the settings panel state. -/
structure MainWindowState where
  markdown_font_size : Int
  markdown_text : String
  settings : Settings
deriving DecidableEq, Repr

/-- Initial `markdown_font_size` set in `MainWindow.__init__`. -/
def init_markdown_font_size : Int := 12

/-- `MainWindow.update_html`: converts the editor text with the markdown
library (abstracted as `conv`), picks `center_css` by the `center` setting,
and formats `HTML_TEMPLATE`; the result is what is loaded into the preview
pane. -/
def update_html (conv : String → String) (w : MainWindowState) : String :=
  let html_content := conv w.markdown_text
  let settings := w.settings
  let center_css := if settings.center then CENTER_CSS else ""
  HTML_TEMPLATE_format html_content settings.bg_color settings.text_color
    settings.font_family center_css

/-- The `full_html` computed by `MainWindow.save_html` (the string written to
the chosen file): same conversion, same `center_css` choice, same
`HTML_TEMPLATE.format` call as `update_html`. -/
def save_html_full_html (conv : String → String) (md_text : String) (settings : Settings) : String :=
  let html_content := conv md_text
  let center_css := if settings.center then CENTER_CSS else ""
  HTML_TEMPLATE_format html_content settings.bg_color settings.text_color
    settings.font_family center_css

/-- The `full_html` computed by `MainWindow.open_in_browser` (the string
written to the temporary file): same conversion, same `center_css` choice,
same `HTML_TEMPLATE.format` call as `update_html`. -/
def open_in_browser_full_html (conv : String → String) (md_text : String) (settings : Settings) : String :=
  let html_content := conv md_text
  let center_css := if settings.center then CENTER_CSS else ""
  HTML_TEMPLATE_format html_content settings.bg_color settings.text_color
    settings.font_family center_css

/-- `MainWindow.zoom_in`: unconditionally increments the editor font size. -/
def zoom_in (w : MainWindowState) : MainWindowState :=
  { w with markdown_font_size := w.markdown_font_size + 1 }

/-- `MainWindow.zoom_out`: decrements the editor font size only when it is
strictly greater than 1. -/
def zoom_out (w : MainWindowState) : MainWindowState :=
  if w.markdown_font_size > 1 then
    { w with markdown_font_size := w.markdown_font_size - 1 }
  else w

/-- One string occurs somewhere inside another (substring containment on the
underlying character lists). -/
def StrContains (needle hay : String) : Prop :=
  needle.data <:+: hay.data

instance (needle hay : String) : Decidable (StrContains needle hay) :=
  inferInstanceAs (Decidable (needle.data <:+: hay.data))

theorem strContains_mid (l n r : String) : StrContains n (l ++ n ++ r) := by
  unfold StrContains
  rw [String.data_append, String.data_append]
  exact List.infix_append _ _ _

theorem strContains_of_eq (n h l r : String) (e : h = l ++ n ++ r) :
    StrContains n h := e ▸ strContains_mid l n r

/-- Executable prefix test on character lists (structural recursion, so that
closed instances evaluate inside the kernel). -/
def isPrefixOfB : List Char → List Char → Bool
  | [], _ => true
  | _ :: _, [] => false
  | a :: as, b :: bs => a == b && isPrefixOfB as bs

/-- Executable substring test on character lists. -/
def containsB (n : List Char) : List Char → Bool
  | [] => isPrefixOfB n []
  | b :: t => isPrefixOfB n (b :: t) || containsB n t

theorem isPrefixOfB_eq_true_iff (n : List Char) :
    ∀ l : List Char, isPrefixOfB n l = true ↔ n <+: l := by
  induction n with
  | nil => intro l; simp [isPrefixOfB]
  | cons a as ih =>
    intro l
    cases l with
    | nil => simp [isPrefixOfB]
    | cons b bs => simp [isPrefixOfB, List.cons_prefix_cons, ih]

theorem containsB_eq_true_iff (n : List Char) :
    ∀ l : List Char, containsB n l = true ↔ n <:+: l := by
  intro l
  induction l with
  | nil => simp [containsB, isPrefixOfB_eq_true_iff]
  | cons b t ih =>
    rw [containsB, Bool.or_eq_true, isPrefixOfB_eq_true_iff, ih,
      List.infix_cons_iff]

theorem not_strContains_of_containsB_eq_false (n h : String)
    (e : containsB n.data h.data = false) : ¬ StrContains n h := by
  intro hc
  rw [StrContains, ← containsB_eq_true_iff] at hc
  rw [e] at hc
  exact Bool.false_ne_true hc

theorem update_html_eq (conv : String → String) (w : MainWindowState) :
    update_html conv w =
      HTML_TEMPLATE_format (conv w.markdown_text) w.settings.bg_color
        w.settings.text_color w.settings.font_family
        (if w.settings.center then CENTER_CSS else "") := rfl

theorem HTML_TEMPLATE_format_ff_split (content bg tc ff cc : String) :
    HTML_TEMPLATE_format content bg tc ff cc =
      HTML_TEMPLATE_seg0 ++ ff ++
      (HTML_TEMPLATE_seg1 ++ ff ++ HTML_TEMPLATE_seg2 ++ bg ++
        HTML_TEMPLATE_seg3 ++ tc ++ HTML_TEMPLATE_seg4 ++ tc ++
        HTML_TEMPLATE_seg5 ++ ff ++ HTML_TEMPLATE_seg6 ++ cc ++
        HTML_TEMPLATE_seg7 ++ content ++ HTML_TEMPLATE_seg8) := by
  simp [HTML_TEMPLATE_format, String.append_assoc]

theorem HTML_TEMPLATE_format_bg_split (content bg tc ff cc : String) :
    HTML_TEMPLATE_format content bg tc ff cc =
      (HTML_TEMPLATE_seg0 ++ ff ++ HTML_TEMPLATE_seg1 ++ ff ++
        HTML_TEMPLATE_seg2) ++ bg ++
      (HTML_TEMPLATE_seg3 ++ tc ++ HTML_TEMPLATE_seg4 ++ tc ++
        HTML_TEMPLATE_seg5 ++ ff ++ HTML_TEMPLATE_seg6 ++ cc ++
        HTML_TEMPLATE_seg7 ++ content ++ HTML_TEMPLATE_seg8) := by
  simp [HTML_TEMPLATE_format, String.append_assoc]

theorem HTML_TEMPLATE_format_tc_split (content bg tc ff cc : String) :
    HTML_TEMPLATE_format content bg tc ff cc =
      (HTML_TEMPLATE_seg0 ++ ff ++ HTML_TEMPLATE_seg1 ++ ff ++
        HTML_TEMPLATE_seg2 ++ bg ++ HTML_TEMPLATE_seg3) ++ tc ++
      (HTML_TEMPLATE_seg4 ++ tc ++ HTML_TEMPLATE_seg5 ++ ff ++
        HTML_TEMPLATE_seg6 ++ cc ++ HTML_TEMPLATE_seg7 ++ content ++
        HTML_TEMPLATE_seg8) := by
  simp [HTML_TEMPLATE_format, String.append_assoc]

theorem HTML_TEMPLATE_format_center_split (content bg tc ff cc : String) :
    HTML_TEMPLATE_format content bg tc ff cc =
      (HTML_TEMPLATE_seg0 ++ ff ++ HTML_TEMPLATE_seg1 ++ ff ++
        HTML_TEMPLATE_seg2 ++ bg ++ HTML_TEMPLATE_seg3 ++ tc ++
        HTML_TEMPLATE_seg4 ++ tc ++ HTML_TEMPLATE_seg5 ++ ff ++
        HTML_TEMPLATE_seg6) ++ cc ++
      (HTML_TEMPLATE_seg7 ++ content ++ HTML_TEMPLATE_seg8) := by
  simp [HTML_TEMPLATE_format, String.append_assoc]

/-- C1: the render operation is deterministic and a pure function of the
editor text and the settings snapshot: any two window states agreeing on
`markdown_text` and `settings` (whatever their other state, e.g. the editor
font size) produce the same full HTML document under the same converter. -/
theorem C1_update_html_pure (conv : String → String)
    (w₁ w₂ : MainWindowState)
    (hmd : w₁.markdown_text = w₂.markdown_text)
    (hs : w₁.settings = w₂.settings) :
    update_html conv w₁ = update_html conv w₂ := by
  unfold update_html
  rw [hmd, hs]

theorem C1_update_html_pure_witness :
    update_html (fun x => x) ⟨12, "# Hi", initSettings⟩ =
      update_html (fun x => x) ⟨99, "# Hi", initSettings⟩ :=
  C1_update_html_pure (fun x => x) _ _ rfl rfl

/-- C2: settings/config round-trip. Saving settings `s` to a config mapping,
loading that mapping into the store (whatever its prior state `t`), and
saving again yields a mapping equal to the first save:
`save(load(save(s))) = save(s)`. -/
theorem C2_config_roundtrip (s t : Settings) :
    get_settings (apply_config (get_settings s) t) = get_settings s := by
  cases s
  cases t
  rfl

/-- C3 as stated is false in its negative half: with `center = false` the
renderer does not insert the centering rule, but because the settings strings
are interpolated unescaped, a settings value that itself contains the
centering block puts it in the output. Concrete refutation: `bg_color` set to
the centering CSS itself, `center = false`, and the block occurs in the
rendered document. -/
theorem C3_counterexample :
    (⟨CENTER_CSS, "#ebdbb2", "roboto+mono", false⟩ : Settings).center =
        false ∧
      StrContains CENTER_CSS
        (update_html (fun x => x)
          ⟨12, "", ⟨CENTER_CSS, "#ebdbb2", "roboto+mono", false⟩⟩) := by
  constructor
  · rfl
  · have h : update_html (fun x => x)
        ⟨12, "", ⟨CENTER_CSS, "#ebdbb2", "roboto+mono", false⟩⟩ =
        HTML_TEMPLATE_format "" CENTER_CSS "#ebdbb2" "roboto+mono" "" := rfl
    rw [h, HTML_TEMPLATE_format_bg_split]
    exact strContains_mid _ _ _

set_option maxRecDepth 40000 in
set_option maxHeartbeats 1000000 in
/-- C3 (amended): if `center` is true the rendered document always contains
the centering media-query block; if `center` is false the renderer fills the
centering slot of the template with the empty string — so the output is the
template instantiation with no centering rule, and on benign inputs (e.g. the
default colors and font with an empty fragment) the block is absent — though
an interpolated string that itself contains the block can still make it
appear, since nothing is escaped. -/
theorem C3_center_block :
    (∀ (conv : String → String) (w : MainWindowState),
      w.settings.center = true →
        StrContains CENTER_CSS (update_html conv w)) ∧
      (∀ (conv : String → String) (w : MainWindowState),
        w.settings.center = false →
          update_html conv w =
            HTML_TEMPLATE_format (conv w.markdown_text) w.settings.bg_color
              w.settings.text_color w.settings.font_family "") ∧
      ¬ StrContains CENTER_CSS
        (update_html (fun _ => "")
          ⟨12, "", ⟨default_bg_color, default_text_color, default_font,
            false⟩⟩) := by
  refine ⟨fun conv w h => ?_, fun conv w h => ?_, ?_⟩
  · rw [update_html_eq, h, if_pos rfl, HTML_TEMPLATE_format_center_split]
    exact strContains_mid _ _ _
  · rw [update_html_eq, h, if_neg Bool.false_ne_true]
  · apply not_strContains_of_containsB_eq_false
    decide

theorem C3_center_block_witness :
    StrContains CENTER_CSS
        (update_html (fun x => x) ⟨12, "# Hi", initSettings⟩) ∧
      update_html (fun x => x)
          ⟨12, "", ⟨"#282828", "#ebdbb2", "roboto+mono", false⟩⟩ =
        HTML_TEMPLATE_format ((fun x => x) "") "#282828" "#ebdbb2"
          "roboto+mono" "" :=
  ⟨C3_center_block.1 (fun x => x) _ rfl, C3_center_block.2.1 (fun x => x) _ rfl⟩

/-- C4: applying a partial config merges exactly the recognized keys.
Unrecognized keys never influence the result; each of the four fields is
overwritten precisely when its key is present and kept at its prior value
when absent — in particular a config without the `center` key leaves
`center` unchanged. -/
theorem C4_apply_config_merge (c : Config) (s : Settings) (v : String)
    (b : Bool) (e : List String) :
    apply_config { c with extra := e } s = apply_config c s ∧
      (c.bg_color? = none → (apply_config c s).bg_color = s.bg_color) ∧
      (c.text_color? = none → (apply_config c s).text_color = s.text_color) ∧
      (c.font_family? = none →
        (apply_config c s).font_family = s.font_family) ∧
      (c.center? = none → (apply_config c s).center = s.center) ∧
      (c.bg_color? = some v → (apply_config c s).bg_color = v) ∧
      (c.text_color? = some v → (apply_config c s).text_color = v) ∧
      (c.font_family? = some v → (apply_config c s).font_family = v) ∧
      (c.center? = some b → (apply_config c s).center = b) := by
  obtain ⟨bgc, tcc, ffc, ctc, ex⟩ := c
  cases bgc <;> cases tcc <;> cases ffc <;> cases ctc <;>
    simp [apply_config]

theorem C4_apply_config_merge_witness :
    apply_config ⟨some "#000000", none, none, none, []⟩ initSettings =
        apply_config ⟨some "#000000", none, none, none, ["junk"]⟩
          initSettings ∧
      (apply_config ⟨some "#000000", none, none, none, ["junk"]⟩
          initSettings).center = initSettings.center ∧
      (apply_config ⟨some "#000000", none, none, none, ["junk"]⟩
          initSettings).bg_color = "#000000" := by
  have h := C4_apply_config_merge
    ⟨some "#000000", none, none, none, ["junk"]⟩ initSettings "#000000"
    true []
  exact ⟨h.1, h.2.2.2.2.1 rfl, h.2.2.2.2.2.1 rfl⟩

/-- C5: a config load that fails (missing file, I/O error, malformed JSON)
is caught and is a no-op on the settings: the whole state — all four fields —
is exactly the prior one, so no field of a corrupt file is ever applied. -/
theorem C5_load_config_error_noop (e : LoadError) (s : Settings) :
    load_config (Except.error e) s = s := rfl

/-- C6 as stated is false: after reset the font family is the code's literal
`"roboto+mono"`, not the claimed `"roboto mono"`. Concrete refutation at one
prior settings state. -/
theorem C6_counterexample :
    ¬ (reset_to_default ⟨"x", "y", "z", false⟩ =
      ⟨"#282828", "#ebdbb2", "roboto mono", true⟩) := by
  decide

/-- C6 (amended): after `reset_to_default`, regardless of the prior state,
the settings equal the code's defaults: `bg_color = "#282828"`,
`text_color = "#ebdbb2"`, `font_family = "roboto+mono"`, `center = true`. -/
theorem C6_reset_defaults (s : Settings) :
    reset_to_default s = ⟨"#282828", "#ebdbb2", "roboto+mono", true⟩ := rfl

/-- C7: the settings strings are interpolated into the template verbatim,
with no escaping or validation: for every converter, editor text and
settings, `bg_color`, `text_color` and `font_family` each occur literally in
the rendered document; and whenever `bg_color = "#000000"`, the document
contains the literal `background-color: #000000;` as the body background
declaration. -/
theorem C7_verbatim_interpolation (conv : String → String)
    (w : MainWindowState) :
    StrContains w.settings.bg_color (update_html conv w) ∧
      StrContains w.settings.text_color (update_html conv w) ∧
      StrContains w.settings.font_family (update_html conv w) ∧
      (w.settings.bg_color = "#000000" →
        StrContains "background-color: #000000;" (update_html conv w)) := by
  refine ⟨?_, ?_, ?_, fun hbg => ?_⟩
  · rw [update_html_eq, HTML_TEMPLATE_format_bg_split]
    exact strContains_mid _ _ _
  · rw [update_html_eq, HTML_TEMPLATE_format_tc_split]
    exact strContains_mid _ _ _
  · rw [update_html_eq, HTML_TEMPLATE_format_ff_split]
    exact strContains_mid _ _ _
  · have h2 : HTML_TEMPLATE_seg2 =
        "\x27, monospace;\n      " ++ "background-color: " := by decide
    have h3 : HTML_TEMPLATE_seg3 = ";" ++ "\n      color: " := by decide
    have hn : "background-color: #000000;" =
        "background-color: " ++ "#000000" ++ ";" := by decide
    apply strContains_of_eq _ _
      (HTML_TEMPLATE_seg0 ++ w.settings.font_family ++ HTML_TEMPLATE_seg1 ++
        w.settings.font_family ++ "\x27, monospace;\n      ")
      ("\n      color: " ++ w.settings.text_color ++ HTML_TEMPLATE_seg4 ++
        w.settings.text_color ++ HTML_TEMPLATE_seg5 ++
        w.settings.font_family ++ HTML_TEMPLATE_seg6 ++
        (if w.settings.center then CENTER_CSS else "") ++
        HTML_TEMPLATE_seg7 ++ conv w.markdown_text ++ HTML_TEMPLATE_seg8)
    rw [update_html_eq, hbg, hn, HTML_TEMPLATE_format, h2, h3]
    simp only [String.append_assoc]

theorem C7_verbatim_interpolation_witness :
    StrContains "#282828" (update_html (fun x => x) ⟨12, "", initSettings⟩) ∧
      StrContains "background-color: #000000;"
        (update_html (fun x => x)
          ⟨12, "", ⟨"#000000", "#ebdbb2", "roboto+mono", true⟩⟩) :=
  ⟨(C7_verbatim_interpolation (fun x => x) ⟨12, "", initSettings⟩).1,
    (C7_verbatim_interpolation (fun x => x)
      ⟨12, "", ⟨"#000000", "#ebdbb2", "roboto+mono", true⟩⟩).2.2.2 rfl⟩

/-- C8: for every settings state, the mapping written by the save-config
operation has exactly the four keys `bg_color`, `text_color`, `font_family`,
`center`, in that order and nothing else, and the `center` entry carries the
boolean `s.center`. -/
theorem C8_save_config_keys (s : Settings) :
    (get_settings s).keys =
        ["bg_color", "text_color", "font_family", "center"] ∧
      (get_settings s).center? = some s.center := ⟨rfl, rfl⟩

/-- C9: the three consumers of the renderer agree. For the same editor text
and settings snapshot, the HTML loaded into the preview by `update_html`,
the HTML written to a file by `save_html`, and the HTML written to the
temporary file by `open_in_browser` are all equal. -/
theorem C9_consumers_agree (conv : String → String) (w : MainWindowState) :
    update_html conv w = save_html_full_html conv w.markdown_text w.settings ∧
      save_html_full_html conv w.markdown_text w.settings =
        open_in_browser_full_html conv w.markdown_text w.settings :=
  ⟨rfl, rfl⟩

/-- C10: the editor font size invariant `markdown_font_size ≥ 1` is
established at initialization (value 12) and preserved by both zoom
operations; `zoom_in` adds exactly 1, and `zoom_out` subtracts exactly 1
when the size is strictly greater than 1 and otherwise leaves the whole
state unchanged. -/
theorem C10_zoom_invariant :
    init_markdown_font_size = 12 ∧
      (∀ w : MainWindowState,
        (zoom_in w).markdown_font_size = w.markdown_font_size + 1) ∧
      (∀ w : MainWindowState, 1 ≤ w.markdown_font_size →
        1 ≤ (zoom_in w).markdown_font_size) ∧
      (∀ w : MainWindowState, 1 < w.markdown_font_size →
        (zoom_out w).markdown_font_size = w.markdown_font_size - 1) ∧
      (∀ w : MainWindowState, ¬ 1 < w.markdown_font_size → zoom_out w = w) ∧
      (∀ w : MainWindowState, 1 ≤ w.markdown_font_size →
        1 ≤ (zoom_out w).markdown_font_size) := by
  refine ⟨rfl, fun w => rfl, fun w h => ?_, fun w h => ?_, fun w h => ?_,
    fun w h => ?_⟩
  · simp only [zoom_in]
    omega
  · simp only [zoom_out, if_pos h]
  · simp only [zoom_out, if_neg h]
  · by_cases hgt : 1 < w.markdown_font_size
    · simp only [zoom_out, if_pos hgt]
      omega
    · simp only [zoom_out, if_neg hgt]
      omega

theorem C10_zoom_invariant_witness :
    (1 : Int) ≤ (zoom_in ⟨12, "", initSettings⟩).markdown_font_size ∧
      (zoom_out ⟨12, "", initSettings⟩).markdown_font_size = 11 ∧
      zoom_out ⟨1, "", initSettings⟩ = ⟨1, "", initSettings⟩ ∧
      (1 : Int) ≤ (zoom_out ⟨1, "", initSettings⟩).markdown_font_size :=
  ⟨C10_zoom_invariant.2.2.1 _ (by decide),
    C10_zoom_invariant.2.2.2.1 _ (by decide),
    C10_zoom_invariant.2.2.2.2.1 _ (by decide),
    C10_zoom_invariant.2.2.2.2.2 _ (by decide)⟩

end Mdhtml
